import Mathlib

/- Shallow embedding of the architecture repository.

   Embedded modules:
   - src/architecture/data/files.py : the RawFile immutable value type
     (the ImmutableFile of the design documents), its acquisition
     constructors and derived operations.
   - src/architecture/utils/functions.py : the synchronous/asynchronous
     bridge utilities run_sync and fire_and_forget.

   Bytes are modelled as natural numbers below 256 and byte strings as
   lists of naturals.  External collaborators (the filesystem, the HTTP
   client, the object store, the URL validator, the sha256 digest) enter
   as explicit function parameters; Python standard library primitives
   that the methods call (gzip, hashlib md5, base64, mimetypes) are
   modelled as executable Lean functions as documented at each one. -/

/-- File extensions recognized by the FileExtension enum of files.py
(members PDF, JSON, PNG, JPEG, JPG, HTML, TXT, MD with the lowercase
member names as values). -/
inductive FileExtension where
  | PDF | JSON | PNG | JPEG | JPG | HTML | TXT | MD
  deriving DecidableEq

/-- Error taxonomy of the specification, one constructor per error kind
surfaced by the embedded operations.  The source raises plain Python
exceptions (FileNotFoundError, ValueError, binascii and gzip errors);
each raise site is mapped to the corresponding specification error kind,
recorded in a comment at that site. -/
inductive Err where
  | notFoundError
  | invalidArgumentError
  | typeResolutionError
  | decodeError
  | sourceUnavailableError
  | ioError
  deriving DecidableEq

/-- Lookup of FileExtension by enum value, as performed by the call
FileExtension(string) in the source; the values are the lowercase
strings, and any other string raises ValueError, modelled as none. -/
def fileExtensionOfValue : String → Option FileExtension
  | "pdf" => some FileExtension.PDF
  | "json" => some FileExtension.JSON
  | "png" => some FileExtension.PNG
  | "jpeg" => some FileExtension.JPEG
  | "jpg" => some FileExtension.JPG
  | "html" => some FileExtension.HTML
  | "txt" => some FileExtension.TXT
  | "md" => some FileExtension.MD
  | _ => none

/-- Lookup of FileExtension by member name, as performed by the test
ext.upper() in FileExtension.__members__ followed by the subscript
FileExtension[ext.upper()] in the object storage constructors. -/
def fileExtensionOfName : String → Option FileExtension
  | "PDF" => some FileExtension.PDF
  | "JSON" => some FileExtension.JSON
  | "PNG" => some FileExtension.PNG
  | "JPEG" => some FileExtension.JPEG
  | "JPG" => some FileExtension.JPG
  | "HTML" => some FileExtension.HTML
  | "TXT" => some FileExtension.TXT
  | "MD" => some FileExtension.MD
  | _ => none

/-- Translation of the static method _get_extension_from_content_type of
RawFile: the closed content-type map, returning none on unmapped
content types. -/
def _get_extension_from_content_type : String → Option FileExtension
  | "application/pdf" => some FileExtension.PDF
  | "application/json" => some FileExtension.JSON
  | "image/png" => some FileExtension.PNG
  | "image/jpeg" => some FileExtension.JPEG
  | "image/jpg" => some FileExtension.JPG
  | "text/html" => some FileExtension.HTML
  | "text/plain" => some FileExtension.TXT
  | _ => none

/-- Splitting of a character list at a separator character, with the
semantics of the Python string split method: adjacent separators and
leading or trailing separators produce empty pieces, and the result is
never empty. -/
def splitOnChar (sep : Char) : List Char → List Char → List (List Char)
  | [], acc => [acc.reverse]
  | c :: cs, acc =>
      if c == sep then acc.reverse :: splitOnChar sep cs []
      else splitOnChar sep cs (c :: acc)

/-- Joining of character list pieces with a dot between them. -/
def joinWithDot : List (List Char) → List Char
  | [] => []
  | [x] => x
  | x :: y :: rest => x ++ '.' :: joinWithDot (y :: rest)

/-- Model of the pathlib suffix property used by the acquisition
constructors: the dot extension of the final path component, empty when
the final component has no dot strictly inside it (a leading dot marks a
hidden file and a trailing dot yields no suffix, as in pathlib). -/
def pathSuffix (p : String) : String :=
  let name := (splitOnChar '/' p.data []).getLastD []
  let parts := splitOnChar '.' name []
  if parts.length ≤ 1 then ""
  else if parts.getLastD [] = [] then ""
  else if joinWithDot parts.dropLast = [] then ""
  else String.mk ('.' :: parts.getLastD [])

/-- Uppercasing of a string character by character, the effect of the
Python upper method on the ASCII suffixes involved. -/
def upperString (s : String) : String := String.mk (s.data.map Char.toUpper)

/-- The part of a header value before the first semicolon, as computed
by the split on the semicolon followed by the subscript zero in
from_url. -/
def headerMainPart (s : String) : String :=
  String.mk ((splitOnChar ';' s.data []).headD [])

/-- Model of the Python string method lstrip applied with the dot
character: drops every leading dot. -/
def lstripDots (s : String) : String :=
  String.mk (s.data.dropWhile (fun c => c == '.'))

/-- Entries of the modelled local filesystem: a regular file with its
byte contents, or a directory. -/
inductive FsEntry where
  | file (data : List Nat)
  | dir
  deriving DecidableEq

/-- The local filesystem as a partial map from paths to entries. -/
abbrev FileSystem := String → Option FsEntry

/-- Modelled from the spec: the gzip standard library module used by the
compress and decompress methods is outside src/; the spec contract
(section 4.1 and the round-trip property of section 8) is that compress
produces a fresh gzip stream over the payload and decompress inverts it,
failing on data that is not validly compressed.  The model emits the
gzip member magic bytes 31, 139 and the deflate method byte 8 followed
by the payload. -/
def gzipCompress (data : List Nat) : List Nat :=
  31 :: 139 :: 8 :: data

/-- Modelled from the spec: inverse of gzipCompress; returns none on
input that does not carry the gzip header, where the gzip module raises
the error the spec calls DecodeError. -/
def gzipDecompress : List Nat → Option (List Nat)
  | 31 :: 139 :: 8 :: rest => some rest
  | _ => none

/-- Modelled from the spec: the mimetypes standard library lookup that
get_mime_type consults, restricted to the closed tag set.  Section 6 of
the spec lists the canonical strings for the first seven tags and states
that unmapped lookups return none. -/
def mimetypesGuessType : FileExtension → Option String
  | FileExtension.PDF => some "application/pdf"
  | FileExtension.JSON => some "application/json"
  | FileExtension.PNG => some "image/png"
  | FileExtension.JPEG => some "image/jpeg"
  | FileExtension.JPG => some "image/jpeg"
  | FileExtension.HTML => some "text/html"
  | FileExtension.TXT => some "text/plain"
  | FileExtension.MD => none

/- MD5, modelled from the spec: the hashlib md5 primitive called by
compute_md5 is a standard library function outside src/; it is embedded
here as the reference MD5 algorithm (RFC 1321) over byte lists, with
32 bit words represented as naturals reduced modulo 2 ^ 32. -/

/-- Modulus for 32 bit words. -/
def pow32 : Nat := 4294967296

/-- Left rotation of a 32 bit word by n bits. -/
def rotl32 (x n : Nat) : Nat :=
  (x * 2 ^ n) % pow32 + x / 2 ^ (32 - n)

/-- MD5 round function F. -/
def md5F (b c d : Nat) : Nat := (b &&& c) ||| ((b ^^^ 4294967295) &&& d)

/-- MD5 round function G. -/
def md5G (b c d : Nat) : Nat := (d &&& b) ||| ((d ^^^ 4294967295) &&& c)

/-- MD5 round function H. -/
def md5H (b c d : Nat) : Nat := b ^^^ c ^^^ d

/-- MD5 round function I. -/
def md5I (b c d : Nat) : Nat := c ^^^ (b ||| (d ^^^ 4294967295))

/-- The 64 MD5 sine constants. -/
def md5K : List Nat :=
  [0xd76aa478, 0xe8c7b756, 0x242070db, 0xc1bdceee,
   0xf57c0faf, 0x4787c62a, 0xa8304613, 0xfd469501,
   0x698098d8, 0x8b44f7af, 0xffff5bb1, 0x895cd7be,
   0x6b901122, 0xfd987193, 0xa679438e, 0x49b40821,
   0xf61e2562, 0xc040b340, 0x265e5a51, 0xe9b6c7aa,
   0xd62f105d, 0x02441453, 0xd8a1e681, 0xe7d3fbc8,
   0x21e1cde6, 0xc33707d6, 0xf4d50d87, 0x455a14ed,
   0xa9e3e905, 0xfcefa3f8, 0x676f02d9, 0x8d2a4c8a,
   0xfffa3942, 0x8771f681, 0x6d9d6122, 0xfde5380c,
   0xa4beea44, 0x4bdecfa9, 0xf6bb4b60, 0xbebfbc70,
   0x289b7ec6, 0xeaa127fa, 0xd4ef3085, 0x04881d05,
   0xd9d4d039, 0xe6db99e5, 0x1fa27cf8, 0xc4ac5665,
   0xf4292244, 0x432aff97, 0xab9423a7, 0xfc93a039,
   0x655b59c3, 0x8f0ccc92, 0xffeff47d, 0x85845dd1,
   0x6fa87e4f, 0xfe2ce6e0, 0xa3014314, 0x4e0811a1,
   0xf7537e82, 0xbd3af235, 0x2ad7d2bb, 0xeb86d391]

/-- The 64 MD5 per-round shift amounts. -/
def md5S : List Nat :=
  [7, 12, 17, 22, 7, 12, 17, 22, 7, 12, 17, 22, 7, 12, 17, 22,
   5, 9, 14, 20, 5, 9, 14, 20, 5, 9, 14, 20, 5, 9, 14, 20,
   4, 11, 16, 23, 4, 11, 16, 23, 4, 11, 16, 23, 4, 11, 16, 23,
   6, 10, 15, 21, 6, 10, 15, 21, 6, 10, 15, 21, 6, 10, 15, 21]

/-- Little endian 32 bit word from up to four bytes. -/
def leWord (bs : List Nat) : Nat :=
  bs.getD 0 0 + 256 * bs.getD 1 0 + 65536 * bs.getD 2 0 + 16777216 * bs.getD 3 0

/-- Word j of a 64 byte chunk, little endian. -/
def md5Word (chunk : List Nat) (j : Nat) : Nat :=
  leWord ((chunk.drop (4 * j)).take 4)

/-- One MD5 round: state is the register quadruple (a, b, c, d). -/
def md5Round (chunk : List Nat) (st : Nat × Nat × Nat × Nat) (i : Nat) :
    Nat × Nat × Nat × Nat :=
  let a := st.1
  let b := st.2.1
  let c := st.2.2.1
  let d := st.2.2.2
  let fg : Nat × Nat :=
    if i < 16 then (md5F b c d, i)
    else if i < 32 then (md5G b c d, (5 * i + 1) % 16)
    else if i < 48 then (md5H b c d, (3 * i + 5) % 16)
    else (md5I b c d, (7 * i) % 16)
  let f := (fg.1 + a + md5K.getD i 0 + md5Word chunk fg.2) % pow32
  (d, (b + rotl32 f (md5S.getD i 0)) % pow32, b, c)

/-- Processing of one 64 byte chunk followed by the feed-forward
addition into the running state. -/
def md5Chunk (st : Nat × Nat × Nat × Nat) (chunk : List Nat) :
    Nat × Nat × Nat × Nat :=
  let r := (List.range 64).foldl (md5Round chunk) st
  ((st.1 + r.1) % pow32, (st.2.1 + r.2.1) % pow32,
   (st.2.2.1 + r.2.2.1) % pow32, (st.2.2.2 + r.2.2.2) % pow32)

/-- MD5 padding: the byte 128, zero bytes up to 56 modulo 64, then the
bit length as eight little endian bytes. -/
def md5Pad (msg : List Nat) : List Nat :=
  let z := (119 - msg.length % 64) % 64
  msg ++ [128] ++ List.replicate z 0 ++
    (List.range 8).map (fun i => (msg.length * 8 / 2 ^ (8 * i)) % 256)

/-- Splitting of a byte list into chunks of 64 bytes, with recursion on
a fuel argument bounded by the list length so that the definition is
structural and evaluates inside the kernel. -/
def chunksOf64Fuel : Nat → List Nat → List (List Nat)
  | 0, _ => []
  | _, [] => []
  | fuel + 1, a :: rest =>
      ((a :: rest).take 64) :: chunksOf64Fuel fuel ((a :: rest).drop 64)

/-- Splitting of a byte list into chunks of 64 bytes. -/
def chunksOf64 (l : List Nat) : List (List Nat) := chunksOf64Fuel l.length l

/-- Four little endian bytes of a 32 bit word. -/
def wordLEBytes (w : Nat) : List Nat :=
  [w % 256, w / 256 % 256, w / 65536 % 256, w / 16777216 % 256]

/-- The 16 byte MD5 digest of a byte list. -/
def md5Bytes (msg : List Nat) : List Nat :=
  let st := (chunksOf64 (md5Pad msg)).foldl md5Chunk
    (0x67452301, 0xefcdab89, 0x98badcfe, 0x10325476)
  wordLEBytes st.1 ++ wordLEBytes st.2.1 ++ wordLEBytes st.2.2.1 ++
    wordLEBytes st.2.2.2

/-- Lowercase hexadecimal digit characters. -/
def hexDigitChar (n : Nat) : Char :=
  "0123456789abcdef".data.getD n '0'

/-- Two hexadecimal characters of one byte. -/
def byteToHex (b : Nat) : List Char :=
  [hexDigitChar (b / 16), hexDigitChar (b % 16)]

/-- Hexadecimal string of a byte list, as produced by hexdigest. -/
def bytesToHexString (bs : List Nat) : String :=
  String.mk ((bs.map byteToHex).flatten)

/-- The hexdigest of the hashlib md5 object updated with the given
bytes, as computed in compute_md5. -/
def md5Hexdigest (msg : List Nat) : String :=
  bytesToHexString (md5Bytes msg)

/- Base64, modelled from the spec: the base64 standard library used by
from_base64 is outside src/; it is embedded as the standard RFC 4648
alphabet encoding over byte lists.  The decoder covers the well formed
inputs (length a multiple of four, alphabet characters, trailing
padding), the domain on which b64decode returns normally. -/

/-- The standard base64 alphabet. -/
def b64Alphabet : List Char :=
  "ABCDEFGHIJKLMNOPQRSTUVWXYZabcdefghijklmnopqrstuvwxyz0123456789+/".data

/-- Encoding character of one six bit group. -/
def b64EncChar (n : Nat) : Char := b64Alphabet.getD n 'A'

/-- Index of a character in the base64 alphabet. -/
def b64DecChar (c : Char) : Nat := b64Alphabet.indexOf c

/-- Base64 encoding over three byte groups with trailing padding. -/
def b64EncodeGroups : List Nat → List Char
  | [] => []
  | [a] => [b64EncChar (a / 4), b64EncChar (a % 4 * 16), '=', '=']
  | [a, b] => [b64EncChar (a / 4), b64EncChar (a % 4 * 16 + b / 16),
               b64EncChar (b % 16 * 4), '=']
  | a :: b :: c :: rest =>
      b64EncChar (a / 4) :: b64EncChar (a % 4 * 16 + b / 16) ::
      b64EncChar (b % 16 * 4 + c / 64) :: b64EncChar (c % 64) ::
      b64EncodeGroups rest

/-- Base64 decoding over four character groups with trailing padding. -/
def b64DecodeGroups : List Char → List Nat
  | c1 :: c2 :: c3 :: c4 :: rest =>
      if c3 = '=' then
        [b64DecChar c1 * 4 + b64DecChar c2 / 16]
      else if c4 = '=' then
        [b64DecChar c1 * 4 + b64DecChar c2 / 16,
         b64DecChar c2 % 16 * 16 + b64DecChar c3 / 4]
      else
        (b64DecChar c1 * 4 + b64DecChar c2 / 16) ::
        (b64DecChar c2 % 16 * 16 + b64DecChar c3 / 4) ::
        (b64DecChar c3 % 4 * 64 + b64DecChar c4) ::
        b64DecodeGroups rest
  | _ => []

/-- The standard base64 encoding of a byte list, as a string. -/
def base64encode (l : List Nat) : String := String.mk (b64EncodeGroups l)

/-- The base64 decoding of a string on the well formed domain. -/
def b64decode (s : String) : List Nat := b64DecodeGroups s.data

/-- The RawFile value type of files.py: an immutable frozen struct
holding the byte contents and the declared extension.  Equality is
field-wise value equality. -/
structure RawFile where
  contents : List Nat
  extension : FileExtension
  deriving DecidableEq

/-- Responses of the HTTP collaborator called by from_url: the response
body bytes and the optional Content-Type header. -/
structure HttpResponse where
  content : List Nat
  contentTypeHeader : Option String
  deriving DecidableEq

/-- Objects of the object storage collaborator called by from_s3: the
ContentType reported by head_object, when present, and the body bytes
returned by get_object. -/
structure S3Object where
  contentType : Option String
  body : List Nat
  deriving DecidableEq

/-- The object store as a partial map from bucket and key to objects. -/
abbrev S3Store := String → String → Option S3Object

namespace RawFile

/-- Translation of the classmethod from_bytes. -/
def from_bytes (data : List Nat) (extension : FileExtension) : RawFile :=
  { contents := data, extension := extension }

/-- Translation of the classmethod from_base64: decode the base64
string, then delegate to from_bytes. -/
def from_base64 (b64_string : String) (extension : FileExtension) : RawFile :=
  from_bytes (b64decode b64_string) extension

/-- Translation of the classmethod from_file_path, over the modelled
filesystem.  Missing path raises FileNotFoundError (the specification
kind notFoundError); a non-file path raises ValueError (the kind
invalidArgumentError); the constructor call FileExtension(suffix) on an
unrecognized suffix raises ValueError (the kind typeResolutionError). -/
def from_file_path (fs : FileSystem) (file_path : String) : Except Err RawFile :=
  match fs file_path with
  | none => Except.error Err.notFoundError
  | some FsEntry.dir => Except.error Err.invalidArgumentError
  | some (FsEntry.file data) =>
      match fileExtensionOfValue (lstripDots (pathSuffix file_path)) with
      | none => Except.error Err.typeResolutionError
      | some ext => Except.ok { contents := data, extension := ext }

/-- Translation of the classmethod from_url.  The source calls
validators.url(url) and discards the returned value without checking
it, so the url validator enters only through the discarded let binding;
the HTTP collaborator is the function http, whose failure corresponds
to a requests exception propagating out (the kind
sourceUnavailableError).  Tag resolution follows line 393 of files.py:
the explicit extension, else the mapped Content-Type header before the
first semicolon, else the HTML fallback. -/
def from_url (urlValid : String → Bool) (http : String → Except Err HttpResponse)
    (url : String) (extension : Option FileExtension) : Except Err RawFile :=
  let _ := urlValid url
  match http url with
  | Except.error e => Except.error e
  | Except.ok response =>
      let ctMain := headerMainPart (response.contentTypeHeader.getD "")
      let file_extension :=
        extension.getD ((_get_extension_from_content_type ctMain).getD FileExtension.HTML)
      Except.ok { contents := response.content, extension := file_extension }

/-- Translation of the classmethod from_s3 over the modelled object
store.  With no explicit extension the key suffix is tried against the
member names first; otherwise head_object supplies the ContentType
(default empty) for the content-type map; if nothing resolves the
source raises ValueError (the kind typeResolutionError).  A missing
object makes the boto3 calls fail (the kind sourceUnavailableError). -/
def from_s3 (s3 : S3Store) (bucket_name object_key : String)
    (extension : Option FileExtension) : Except Err RawFile :=
  let resolved : Except Err FileExtension :=
    match extension with
    | some e => Except.ok e
    | none =>
        let ext := lstripDots (pathSuffix object_key)
        match fileExtensionOfName (upperString ext) with
        | some e => Except.ok e
        | none =>
            match s3 bucket_name object_key with
            | none => Except.error Err.sourceUnavailableError
            | some obj =>
                match _get_extension_from_content_type (obj.contentType.getD "") with
                | some e => Except.ok e
                | none => Except.error Err.typeResolutionError
  match resolved with
  | Except.error e => Except.error e
  | Except.ok ext =>
      match s3 bucket_name object_key with
      | none => Except.error Err.sourceUnavailableError
      | some obj => Except.ok { contents := obj.body, extension := ext }

/-- Translation of the method get_size: length of the contents. -/
def get_size (f : RawFile) : Nat := f.contents.length

/-- Translation of the method compute_md5: hexdigest of the md5 of the
contents. -/
def compute_md5 (f : RawFile) : String := md5Hexdigest f.contents

/-- Translation of the method compute_sha256: the hashlib sha256
primitive is external standard library code and enters as the function
parameter sha256Hex. -/
def compute_sha256 (sha256Hex : List Nat → String) (f : RawFile) : String :=
  sha256Hex f.contents

/-- Translation of the method get_mime_type: the mimetypes lookup on
the extension with the octet-stream fallback. -/
def get_mime_type (f : RawFile) : String :=
  (mimetypesGuessType f.extension).getD "application/octet-stream"

/-- Translation of the method compress: a new RawFile with compressed
contents and the same extension. -/
def compress (f : RawFile) : RawFile :=
  { contents := gzipCompress f.contents, extension := f.extension }

/-- Translation of the method decompress: a new RawFile with
decompressed contents and the same extension; invalid compressed data
raises the error the spec calls DecodeError. -/
def decompress (f : RawFile) : Except Err RawFile :=
  match gzipDecompress f.contents with
  | none => Except.error Err.decodeError
  | some d => Except.ok { contents := d, extension := f.extension }

/-- Translation of the method save_to_file: writes the contents at the
path on the modelled filesystem. -/
def save_to_file (fs : FileSystem) (f : RawFile) (file_path : String) : FileSystem :=
  fun q => if q = file_path then some (FsEntry.file f.contents) else fs q

/- Call forms: each method returns its result together with the state
of the receiver after the call.  The struct is frozen (msgspec frozen
struct) and no method body assigns to a field of self, so every call
returns the receiver unchanged; the call forms record exactly this. -/

/-- Call form of compress: result and post-call receiver. -/
def compress_call (f : RawFile) : RawFile × RawFile := (f.compress, f)

/-- Call form of decompress: result and post-call receiver. -/
def decompress_call (f : RawFile) : Except Err RawFile × RawFile := (f.decompress, f)

/-- Call form of get_size: result and post-call receiver. -/
def get_size_call (f : RawFile) : Nat × RawFile := (f.get_size, f)

/-- Call form of compute_md5: result and post-call receiver. -/
def compute_md5_call (f : RawFile) : String × RawFile := (f.compute_md5, f)

/-- Call form of compute_sha256: result and post-call receiver. -/
def compute_sha256_call (sha256Hex : List Nat → String) (f : RawFile) :
    String × RawFile := (compute_sha256 sha256Hex f, f)

/-- Call form of get_mime_type: result and post-call receiver. -/
def get_mime_type_call (f : RawFile) : String × RawFile := (f.get_mime_type, f)

/-- Call form of save_to_file: updated filesystem and post-call
receiver. -/
def save_to_file_call (fs : FileSystem) (f : RawFile) (file_path : String) :
    FileSystem × RawFile := (save_to_file fs f file_path, f)

end RawFile

/-- The bytes of the ASCII string Hello, World! used by the scenario of
section 8 of the spec. -/
def helloWorldBytes : List Nat :=
  [72, 101, 108, 108, 111, 44, 32, 87, 111, 114, 108, 100, 33]

/- Embedding of src/architecture/utils/functions.py: the blocking
bridge run_sync and the fire-and-forget bridge.  The thread and event
loop context of a call is reified as a record of the three observations
the source makes: whether asyncio.get_running_loop succeeds on the
calling thread, what loop.is_running returns for that loop, and whether
the calling thread is the main thread.  A wrapped computation carries
its outcome and the wall time it needs to complete; the bounded wait of
future.result is compared against that time. -/

/-- Observations the bridge makes about its calling context. -/
structure CallCtx where
  loopRunning : Bool
  loopIsRunning : Bool
  isMainThread : Bool
  deriving DecidableEq

/-- A wrapped computation: its outcome (a value or its own failure) and
the number of time units it takes to complete. -/
structure Comp (ε α : Type) where
  result : Except ε α
  duration : Nat

/-- Failures surfaced by the blocking bridge: its own timeout, kept
distinct by construction from any failure of the computation itself. -/
inductive BridgeErr (ε : Type) where
  | timeout
  | comp (e : ε)

/-- Lifting of a computation outcome into the bridge failure type. -/
def liftCompResult {ε α : Type} (r : Except ε α) : Except (BridgeErr ε) α :=
  match r with
  | Except.ok v => Except.ok v
  | Except.error e => Except.error (BridgeErr.comp e)

/-- The execution strategy run_sync selects, one constructor per branch
of the source. -/
inductive RunStrategy where
  | asyncioRunFreshLoop
  | runUntilCompleteMainThread
  | workerThreadFreshLoop
  | runCoroutineThreadsafeExisting
  deriving DecidableEq

/-- Translation of run_sync from functions.py.  No running loop: run on
a fresh loop via asyncio.run.  Running loop on the main thread: the
source checks loop.is_running and, in the running case, submits a
closure that drives a new event loop on a ThreadPoolExecutor worker and
waits on the future with the bound of 30; the computation result is
returned when it completes within the bound, and the timeout failure is
raised otherwise.  Running loop on a non-main thread: submit to the
existing loop with run_coroutine_threadsafe and wait unboundedly. -/
def run_sync {ε α : Type} (ctx : CallCtx) (c : Comp ε α) :
    RunStrategy × Except (BridgeErr ε) α :=
  if ctx.loopRunning = false then
    (RunStrategy.asyncioRunFreshLoop, liftCompResult c.result)
  else if ctx.isMainThread then
    if ctx.loopIsRunning = false then
      (RunStrategy.runUntilCompleteMainThread, liftCompResult c.result)
    else
      (RunStrategy.workerThreadFreshLoop,
        if c.duration ≤ 30 then liftCompResult c.result
        else Except.error BridgeErr.timeout)
  else
    (RunStrategy.runCoroutineThreadsafeExisting, liftCompResult c.result)

/-- The scheduling strategy fire_and_forget selects, one constructor
per branch of the source. -/
inductive FireStrategy where
  | scheduledOnExistingLoop
  | ranToCompletionOnFreshLoop
  deriving DecidableEq

/-- Observable outcome of a fire_and_forget call over a state type σ on
which the scheduled computation acts: the strategy taken, the state at
the moment the call returns, the tasks scheduled but not yet driven,
and whether a freshly created loop was torn down before returning. -/
structure FireOutcome (σ : Type) where
  strategy : FireStrategy
  stateAtReturn : σ
  pendingTasks : List (σ → σ)
  freshLoopTornDown : Bool

/-- Translation of fire_and_forget from functions.py.  With a running
loop on the calling thread the computation is enqueued via create_task
and the call returns without driving it, so its effect is still
pending.  With no running loop, asyncio.run creates a fresh loop,
drives the computation to completion (its effect is applied before the
call returns) and closes the loop. -/
def fire_and_forget {σ : Type} (ctx : CallCtx) (task : σ → σ) (s : σ) :
    FireOutcome σ :=
  if ctx.loopRunning then
    { strategy := FireStrategy.scheduledOnExistingLoop, stateAtReturn := s,
      pendingTasks := [task], freshLoopTornDown := false }
  else
    { strategy := FireStrategy.ranToCompletionOnFreshLoop, stateAtReturn := task s,
      pendingTasks := [], freshLoopTornDown := true }

/- Concrete collaborators used by closed instantiations of the
theorems below. -/

/-- A filesystem holding one text file. -/
def demoFs : FileSystem :=
  fun p => if p = "example.txt" then some (FsEntry.file [104, 105]) else none

/-- A filesystem holding one directory and one file with an
unrecognized extension. -/
def demoFsErrors : FileSystem :=
  fun p =>
    if p = "somedir" then some FsEntry.dir
    else if p = "file.xyz" then some (FsEntry.file [1, 2, 3]) else none

/-- An HTTP collaborator answering every request with a small HTML
body. -/
def demoHttp : String → Except Err HttpResponse :=
  fun _ => Except.ok { content := [104, 105], contentTypeHeader := some "text/html" }

/-- An HTTP collaborator answering every request with a body declared
as application/xml, a content type outside the closed map. -/
def demoXmlHttp : String → Except Err HttpResponse :=
  fun _ => Except.ok { content := [60], contentTypeHeader := some "application/xml" }

/-- An object store holding objects declared as application/xml under
every bucket and key. -/
def demoXmlStore : S3Store :=
  fun _ _ => some { contentType := some "application/xml", body := [1, 2] }

/- Helper lemmas. -/

/-- Decoding inverts the encoding character table on the six bit range. -/
theorem b64DecEnc : ∀ n, n < 64 → b64DecChar (b64EncChar n) = n := by decide

/-- Encoding characters are never the padding character. -/
theorem b64EncNePad : ∀ n, n < 64 → b64EncChar n ≠ '=' := by decide

/-- Base64 decoding inverts base64 encoding on byte lists. -/
theorem b64_roundtrip (l : List Nat) :
    (∀ x ∈ l, x < 256) → b64DecodeGroups (b64EncodeGroups l) = l := by
  induction l using b64EncodeGroups.induct with
  | case1 => intro h; rfl
  | case2 a =>
      intro h
      have ha : a < 256 := h a (by simp)
      have h1 := b64DecEnc (a / 4) (by omega)
      have h2 := b64DecEnc (a % 4 * 16) (by omega)
      simp [b64EncodeGroups, b64DecodeGroups, h1, h2]
      omega
  | case3 a b =>
      intro h
      have ha : a < 256 := h a (by simp)
      have hb : b < 256 := h b (by simp)
      have h1 := b64DecEnc (a / 4) (by omega)
      have h2 := b64DecEnc (a % 4 * 16 + b / 16) (by omega)
      have h3 := b64DecEnc (b % 16 * 4) (by omega)
      have hne := b64EncNePad (b % 16 * 4) (by omega)
      simp [b64EncodeGroups, b64DecodeGroups, hne, h1, h2, h3]
      omega
  | case4 a b c rest ih =>
      intro h
      have ha : a < 256 := h a (by simp)
      have hb : b < 256 := h b (by simp)
      have hc : c < 256 := h c (by simp)
      have h1 := b64DecEnc (a / 4) (by omega)
      have h2 := b64DecEnc (a % 4 * 16 + b / 16) (by omega)
      have h3 := b64DecEnc (b % 16 * 4 + c / 64) (by omega)
      have h4 := b64DecEnc (c % 64) (by omega)
      have hne3 := b64EncNePad (b % 16 * 4 + c / 64) (by omega)
      have hne4 := b64EncNePad (c % 64) (by omega)
      have ih2 := ih (fun x hx => h x (by simp [hx]))
      simp [b64EncodeGroups, b64DecodeGroups, hne3, hne4, h1, h2, h3, h4, ih2]
      omega

/- Claim theorems. -/

/-- C1: no public operation mutates a RawFile.  After calling compress,
decompress, get_size, compute_md5, compute_sha256, get_mime_type or
save_to_file, the receiver fields contents and extension are identical
to their values before the call, and compress returns a freshly
constructed instance carrying the compressed contents with the same
extension rather than mutating the receiver. -/
theorem C1_rawfile_immutability (f : RawFile) (fs : FileSystem)
    (p : String) (sha256Hex : List Nat → String) :
    (RawFile.compress_call f).2 = f ∧
    (RawFile.decompress_call f).2 = f ∧
    (RawFile.get_size_call f).2 = f ∧
    (RawFile.compute_md5_call f).2 = f ∧
    (RawFile.compute_sha256_call sha256Hex f).2 = f ∧
    (RawFile.get_mime_type_call f).2 = f ∧
    (RawFile.save_to_file_call fs f p).2 = f ∧
    (RawFile.compress_call f).1 =
      { contents := gzipCompress f.contents, extension := f.extension } ∧
    ((RawFile.compress_call f).1).extension = f.extension :=
  ⟨rfl, rfl, rfl, rfl, rfl, rfl, rfl, rfl, rfl⟩

/-- C2: for every byte list b and tag t, compressing and then
decompressing from_bytes b t yields exactly the file with contents b
and extension t. -/
theorem C2_compress_decompress_roundtrip (b : List Nat) (t : FileExtension) :
    ((RawFile.from_bytes b t).compress).decompress =
      Except.ok { contents := b, extension := t } := rfl

set_option maxRecDepth 100000 in
set_option maxHeartbeats 1000000 in
/-- C3: the scenario of section 8 of the spec: from_bytes of the
thirteen bytes of Hello, World! tagged TXT has size 13, the well known
MD5 hex digest of that string, and MIME type text/plain. -/
theorem C3_hello_world_scenario :
    (RawFile.from_bytes helloWorldBytes FileExtension.TXT).get_size = 13 ∧
    (RawFile.from_bytes helloWorldBytes FileExtension.TXT).compute_md5 =
      "65a8e27d8879283831b664bd8b7f0ad4" ∧
    (RawFile.from_bytes helloWorldBytes FileExtension.TXT).get_mime_type =
      "text/plain" :=
  ⟨rfl, by decide, rfl⟩

/-- C4 counterexample: the local path constructor from_file_path takes
no explicit tag parameter at all, so the claimed override precedence
cannot hold there: on a path with a txt suffix it always returns the
TXT tag and an explicit PDF override is not expressible. -/
theorem C4_counterexample_local_path_has_no_override :
    RawFile.from_file_path demoFs "example.txt" =
      Except.ok { contents := [104, 105], extension := FileExtension.TXT } ∧
    FileExtension.TXT ≠ FileExtension.PDF :=
  ⟨rfl, by decide⟩

/-- C4 as amended: for the acquisition constructors that do accept an
explicit tag override, exemplified by from_url and from_s3, a supplied
explicit tag always becomes the extension of the returned file,
regardless of any content type or key suffix the source provides. -/
theorem C4_explicit_tag_wins (urlValid : String → Bool)
    (http : String → Except Err HttpResponse) (url : String) (resp : HttpResponse)
    (s3 : S3Store) (bucket key : String) (obj : S3Object) (t : FileExtension)
    (hhttp : http url = Except.ok resp) (hs3 : s3 bucket key = some obj) :
    RawFile.from_url urlValid http url (some t) =
      Except.ok { contents := resp.content, extension := t } ∧
    RawFile.from_s3 s3 bucket key (some t) =
      Except.ok { contents := obj.body, extension := t } := by
  constructor
  · simp [RawFile.from_url, hhttp]
  · simp [RawFile.from_s3, hs3]

/-- C4 witness: the amended claim at concrete collaborators, with a PDF
override against a text/html response and an xml object. -/
theorem C4_explicit_tag_wins_witness :
    RawFile.from_url (fun _ => true) demoHttp "https://example.com/doc.txt"
        (some FileExtension.PDF) =
      Except.ok { contents := [104, 105], extension := FileExtension.PDF } ∧
    RawFile.from_s3 demoXmlStore "bucket" "doc.txt" (some FileExtension.PDF) =
      Except.ok { contents := [1, 2], extension := FileExtension.PDF } :=
  C4_explicit_tag_wins (fun _ => true) demoHttp "https://example.com/doc.txt"
    { content := [104, 105], contentTypeHeader := some "text/html" }
    demoXmlStore "bucket" "doc.txt"
    { contentType := some "application/xml", body := [1, 2] }
    FileExtension.PDF rfl rfl

/-- C5: with no explicit tag, from_url falls back to the HTML tag
whenever the response content type is outside the closed map, while
from_s3 under an unrecognized key suffix and an unmapped object content
type raises the type resolution error instead of falling back. -/
theorem C5_unmapped_content_type_asymmetry (urlValid : String → Bool)
    (http : String → Except Err HttpResponse) (url : String) (resp : HttpResponse)
    (s3 : S3Store) (bucket key : String) (obj : S3Object)
    (hhttp : http url = Except.ok resp)
    (hct : _get_extension_from_content_type
      (headerMainPart (resp.contentTypeHeader.getD "")) = none)
    (hkey : fileExtensionOfName (upperString (lstripDots (pathSuffix key))) = none)
    (hs3 : s3 bucket key = some obj)
    (hoct : _get_extension_from_content_type (obj.contentType.getD "") = none) :
    RawFile.from_url urlValid http url none =
      Except.ok { contents := resp.content, extension := FileExtension.HTML } ∧
    RawFile.from_s3 s3 bucket key none = Except.error Err.typeResolutionError := by
  constructor
  · simp [RawFile.from_url, hhttp, hct]
  · simp [RawFile.from_s3, hkey, hs3, hoct]

/-- C5 witness: the asymmetry at the concrete content type
application/xml and the concrete key data.xml. -/
theorem C5_unmapped_content_type_asymmetry_witness :
    RawFile.from_url (fun _ => true) demoXmlHttp "https://example.com/data" none =
      Except.ok { contents := [60], extension := FileExtension.HTML } ∧
    RawFile.from_s3 demoXmlStore "bucket" "data.xml" none =
      Except.error Err.typeResolutionError :=
  C5_unmapped_content_type_asymmetry (fun _ => true) demoXmlHttp
    "https://example.com/data"
    { content := [60], contentTypeHeader := some "application/xml" }
    demoXmlStore "bucket" "data.xml"
    { contentType := some "application/xml", body := [1, 2] }
    rfl (by decide) (by decide) rfl (by decide)

/-- C6: from_file_path fails with the not found error on every missing
path, with the invalid argument error on every directory path, and with
the type resolution error on every regular file whose suffix is outside
the recognized extension set; it never returns a file in these cases. -/
theorem C6_from_file_path_failures (fs : FileSystem) (p q r : String)
    (data : List Nat) (h1 : fs p = none) (h2 : fs q = some FsEntry.dir)
    (h3 : fs r = some (FsEntry.file data))
    (h4 : fileExtensionOfValue (lstripDots (pathSuffix r)) = none) :
    RawFile.from_file_path fs p = Except.error Err.notFoundError ∧
    RawFile.from_file_path fs q = Except.error Err.invalidArgumentError ∧
    RawFile.from_file_path fs r = Except.error Err.typeResolutionError := by
  refine ⟨?_, ?_, ?_⟩
  · simp [RawFile.from_file_path, h1]
  · simp [RawFile.from_file_path, h2]
  · simp [RawFile.from_file_path, h3, h4]

/-- C6 witness: the three failures on a concrete filesystem, with the
missing path example.pdf of the spec scenario. -/
theorem C6_from_file_path_failures_witness :
    RawFile.from_file_path demoFsErrors "example.pdf" =
      Except.error Err.notFoundError ∧
    RawFile.from_file_path demoFsErrors "somedir" =
      Except.error Err.invalidArgumentError ∧
    RawFile.from_file_path demoFsErrors "file.xyz" =
      Except.error Err.typeResolutionError :=
  C6_from_file_path_failures demoFsErrors "example.pdf" "somedir" "file.xyz"
    [1, 2, 3] rfl rfl rfl (by decide)

/-- C7: the source calls the url validator but discards its verdict, so
from_url behaves identically under any two validators; in particular on
a malformed url the fetch still proceeds and a file is returned instead
of the invalid argument error. -/
theorem C7_url_validation_discarded :
    (∀ (v1 v2 : String → Bool) (http : String → Except Err HttpResponse)
        (url : String) (ext : Option FileExtension),
        RawFile.from_url v1 http url ext = RawFile.from_url v2 http url ext) ∧
    RawFile.from_url (fun _ => false) demoHttp "https://a" none =
      Except.ok { contents := [104, 105], extension := FileExtension.HTML } :=
  ⟨fun _ _ _ _ _ => rfl, rfl⟩

/-- C8: invoked with a running loop on the main thread, run_sync takes
the worker thread branch that drives a fresh loop on a separate thread,
returns the computation result when it completes within the bound of
30, raises the bridge timeout when the bound is exceeded, and the
timeout failure is distinct from every failure of the computation. -/
theorem C8_run_sync_worker_thread {ε α : Type} (ctx : CallCtx) (c : Comp ε α)
    (v : α) (h1 : ctx.loopRunning = true) (h2 : ctx.loopIsRunning = true)
    (h3 : ctx.isMainThread = true) :
    (run_sync ctx c).1 = RunStrategy.workerThreadFreshLoop ∧
    (c.duration ≤ 30 → (run_sync ctx c).2 = liftCompResult c.result) ∧
    (c.result = Except.ok v → c.duration ≤ 30 →
      (run_sync ctx c).2 = Except.ok v) ∧
    (30 < c.duration → (run_sync ctx c).2 = Except.error BridgeErr.timeout) ∧
    (∀ e : ε, (Except.error (BridgeErr.comp e) : Except (BridgeErr ε) α) ≠
      Except.error BridgeErr.timeout) := by
  refine ⟨?_, ?_, ?_, ?_, ?_⟩
  · simp [run_sync, h1, h2, h3]
  · intro hle
    simp [run_sync, h1, h2, h3, hle]
  · intro hres hle
    simp [run_sync, h1, h2, h3, hle, hres, liftCompResult]
  · intro hgt
    have hn : ¬ c.duration ≤ 30 := by omega
    simp [run_sync, h1, h2, h3, hn]
  · intro e
    simp

/-- C8 witness: the trivial computation returning 42 instantly, run
from the main thread under a running loop, yields 42. -/
theorem C8_run_sync_worker_thread_witness :
    (run_sync { loopRunning := true, loopIsRunning := true, isMainThread := true }
      ({ result := Except.ok 42, duration := 0 } : Comp Unit Nat)).2 =
      Except.ok 42 :=
  (C8_run_sync_worker_thread
    { loopRunning := true, loopIsRunning := true, isMainThread := true }
    { result := Except.ok 42, duration := 0 } 42 rfl rfl rfl).2.2.1 rfl
    (by decide)

/-- C9: with no running loop on the calling thread, fire_and_forget
creates a fresh loop, drives the computation to completion so that its
side effect is applied to the state before the call returns, leaves no
pending task, and tears the fresh loop down before returning. -/
theorem C9_fire_and_forget_no_loop {σ : Type} (ctx : CallCtx) (task : σ → σ)
    (s : σ) (h : ctx.loopRunning = false) :
    (fire_and_forget ctx task s).strategy =
      FireStrategy.ranToCompletionOnFreshLoop ∧
    (fire_and_forget ctx task s).stateAtReturn = task s ∧
    (fire_and_forget ctx task s).pendingTasks = [] ∧
    (fire_and_forget ctx task s).freshLoopTornDown = true := by
  refine ⟨?_, ?_, ?_, ?_⟩ <;> simp [fire_and_forget, h]

/-- C9 witness: a counter increment scheduled with no active loop has
taken effect by the time the call returns. -/
theorem C9_fire_and_forget_no_loop_witness :
    (fire_and_forget
      { loopRunning := false, loopIsRunning := false, isMainThread := true }
      Nat.succ 0).stateAtReturn = 1 :=
  (C9_fire_and_forget_no_loop
    { loopRunning := false, loopIsRunning := false, isMainThread := true }
    Nat.succ 0 rfl).2.1

/-- C10: constructing through the base64 path from the standard base64
encoding of a byte list equals constructing directly from the bytes:
from_base64 of base64encode b with tag t is field-wise equal to
from_bytes b t. -/
theorem C10_base64_path_equals_bytes_path (b : List Nat) (t : FileExtension)
    (h : ∀ x ∈ b, x < 256) :
    RawFile.from_base64 (base64encode b) t = RawFile.from_bytes b t := by
  have h1 : b64decode (base64encode b) = b := b64_roundtrip b h
  calc RawFile.from_base64 (base64encode b) t
      = RawFile.from_bytes (b64decode (base64encode b)) t := rfl
    _ = RawFile.from_bytes b t := by rw [h1]

/-- C10 witness: the two construction paths agree on the two byte
message Hi tagged TXT. -/
theorem C10_base64_path_equals_bytes_path_witness :
    RawFile.from_base64 (base64encode [72, 105]) FileExtension.TXT =
      RawFile.from_bytes [72, 105] FileExtension.TXT :=
  C10_base64_path_equals_bytes_path [72, 105] FileExtension.TXT (by decide)
